import Mathlib

/-!
Shallow embedding of the LS-8 style virtual CPU in src/cpu.py.

Python integers are modelled as Lean Int.  Python floor division and
floor modulus are Int.fdiv and Int.fmod; an arithmetic right shift by k
is floor division by 2 ^ k, and a bitwise mask with 2 ^ k - 1 on a
two-complement integer is the nonnegative remainder modulo 2 ^ k, here
Int.emod.  Python list indexing (negative indices count from the end,
out-of-range indices raise IndexError) is modelled by pyGet and pySet
returning Option.  Handlers that may raise return an explicit error
outcome carrying the state at the moment of the raise.
-/

namespace LS8

set_option maxRecDepth 8192

/-! Opcode constants, verbatim from the source. -/

def HALT : Int := 0b00000001
def LDI : Int := 0b10000010
def PRN : Int := 0b01000111
def NOP : Int := 0b00000000
def MULT : Int := 0b10100010
def POP : Int := 0b01000110
def PUSH : Int := 0b01000101
def CALL : Int := 0b01010000
def RET : Int := 0b00010001
def ADD : Int := 0b10100000
def CMP : Int := 0b10100111
def JMP : Int := 0b01010100
def JEQ : Int := 0b01010101
def JNE : Int := 0b01010110
def AND : Int := 0b10101000
def XOR : Int := 0b10101011
def OR : Int := 0b10101010
def NOT : Int := 0b01101001
def SHL : Int := 0b10101100
def SHR : Int := 0b10101101
def MOD : Int := 0b10100100

/-- Register index of the stack pointer (SP = 7 in the source). -/
def SP : Int := 7

/-! Python list indexing. -/

/-- Translate a Python list index into a position of a list of length n:
a nonnegative index must be below n, a negative index counts from the
end when it is at least -n, anything else raises IndexError (none). -/
def pyIdx (n : Nat) (i : Int) : Option Nat :=
  if 0 ≤ i then
    if i < (n : Int) then some i.toNat else none
  else
    if -(n : Int) ≤ i then some (i + (n : Int)).toNat else none

/-- Python list read l[i]. -/
def pyGet (l : List Int) (i : Int) : Option Int :=
  (pyIdx l.length i).bind fun j => l[j]?

/-- Python list write l[i] = v, returning the updated list. -/
def pySet (l : List Int) (i : Int) (v : Int) : Option (List Int) :=
  (pyIdx l.length i).map fun j => l.set j v

/-! The CPU state: the fields of the CPU object that the core mutates.
The out field records the values printed by PRN, in order. -/

structure CPUState where
  reg : List Int
  ram : List Int
  pc : Int
  fl : Int
  out : List Int
deriving DecidableEq

/-- Python exceptions that the handlers can raise. -/
inductive Err where
  | indexError
  | valueError
  | aluError (msg : String)
deriving DecidableEq

/-- Outcome of one handler invocation: either a normal return carrying
the truthiness of the returned value (True only for halt) and the new
state, or an uncaught exception with the state at the raise. -/
inductive HOut where
  | ok (stop : Bool) (s : CPUState)
  | exn (e : Err) (s : CPUState)
deriving DecidableEq

/-- The state of the CPU object right after CPU.__init__. -/
def CPU_init : CPUState :=
  { reg := (List.replicate 8 (0 : Int)).set 7 0xF4
    ram := List.replicate 256 (0 : Int)
    pc := 0
    fl := 0
    out := [] }

/-- CPU.ram_read. -/
def ram_read (s : CPUState) (i : Int) : Option Int :=
  pyGet s.ram i

/-- CPU.ram_write, returning the state with the updated ram. -/
def ram_write (s : CPUState) (i v : Int) : Option CPUState :=
  (pySet s.ram i v).map fun ram1 => { s with ram := ram1 }

/-- CPU.sets_pc: opcode >> 4 & 1, on Python ints. -/
def sets_pc (opcode : Int) : Int :=
  (opcode.fdiv 16).fmod 2

/-- CPU.increment: (opcode >> 6 & 0b11) + 1, on Python ints. -/
def increment (opcode : Int) : Int :=
  (opcode.fdiv 64).fmod 4 + 1

/-! ALU handlers.  Each takes the two operand bytes reg_a, reg_b that
CPU.run_alu read from ram at pc + 1 and pc + 2, and mutates the
register file (or the flags, for the compare) in place. -/

/-- ALU.mod: num = reg[reg_b]; raise if num == 0; else
reg[reg_a] = reg[reg_a] % num (Python %, i.e. Int.fmod). -/
def mod (s : CPUState) (reg_a reg_b : Int) : HOut :=
  match pyGet s.reg reg_b with
  | none => .exn .indexError s
  | some num =>
    if num = 0 then
      .exn (.aluError "Unsupported ALU operation - division by zero") s
    else
      match pyGet s.reg reg_a with
      | none => .exn .indexError s
      | some va =>
        match pySet s.reg reg_a (va.fmod num) with
        | none => .exn .indexError s
        | some reg1 => .ok false { s with reg := reg1 }

/-- ALU.shl: reg[reg_a] = reg[reg_a] << reg[reg_b].  A Python left
shift by a nonnegative count multiplies by 2 ^ count; a negative count
raises ValueError. -/
def shl (s : CPUState) (reg_a reg_b : Int) : HOut :=
  match pyGet s.reg reg_a with
  | none => .exn .indexError s
  | some va =>
    match pyGet s.reg reg_b with
    | none => .exn .indexError s
    | some vb =>
      if 0 ≤ vb then
        match pySet s.reg reg_a (va * 2 ^ vb.toNat) with
        | none => .exn .indexError s
        | some reg1 => .ok false { s with reg := reg1 }
      else .exn .valueError s

/-- ALU.shr: reg[reg_a] = reg[reg_a] >> reg[reg_b].  A Python right
shift by a nonnegative count is floor division by 2 ^ count; a negative
count raises ValueError. -/
def shr (s : CPUState) (reg_a reg_b : Int) : HOut :=
  match pyGet s.reg reg_a with
  | none => .exn .indexError s
  | some va =>
    match pyGet s.reg reg_b with
    | none => .exn .indexError s
    | some vb =>
      if 0 ≤ vb then
        match pySet s.reg reg_a (va.fdiv (2 ^ vb.toNat)) with
        | none => .exn .indexError s
        | some reg1 => .ok false { s with reg := reg1 }
      else .exn .valueError s

/-- ALU.not_op: reg[reg_a] = ~reg[reg_a] & ((1 << 8) - 1).  In Python,
~x is -x - 1, and masking a two-complement integer with 255 keeps its
low 8 bits, which is its nonnegative remainder modulo 256. -/
def not_op (s : CPUState) (reg_a reg_b : Int) : HOut :=
  match pyGet s.reg reg_a with
  | none => .exn .indexError s
  | some va =>
    match pySet s.reg reg_a ((-va - 1).emod 256) with
    | none => .exn .indexError s
    | some reg1 => .ok false { s with reg := reg1 }

/-- ALU.or_op: reg[reg_a] = reg[reg_a] | reg[reg_b]. -/
def or_op (s : CPUState) (reg_a reg_b : Int) : HOut :=
  match pyGet s.reg reg_a with
  | none => .exn .indexError s
  | some va =>
    match pyGet s.reg reg_b with
    | none => .exn .indexError s
    | some vb =>
      match pySet s.reg reg_a (Int.lor va vb) with
      | none => .exn .indexError s
      | some reg1 => .ok false { s with reg := reg1 }

/-- ALU.xor: reg[reg_a] = reg[reg_a] ^ reg[reg_b]. -/
def xor (s : CPUState) (reg_a reg_b : Int) : HOut :=
  match pyGet s.reg reg_a with
  | none => .exn .indexError s
  | some va =>
    match pyGet s.reg reg_b with
    | none => .exn .indexError s
    | some vb =>
      match pySet s.reg reg_a (Int.xor va vb) with
      | none => .exn .indexError s
      | some reg1 => .ok false { s with reg := reg1 }

/-- ALU.and_op: reg[reg_a] = reg[reg_a] & reg[reg_b]. -/
def and_op (s : CPUState) (reg_a reg_b : Int) : HOut :=
  match pyGet s.reg reg_a with
  | none => .exn .indexError s
  | some va =>
    match pyGet s.reg reg_b with
    | none => .exn .indexError s
    | some vb =>
      match pySet s.reg reg_a (Int.land va vb) with
      | none => .exn .indexError s
      | some reg1 => .ok false { s with reg := reg1 }

/-- ALU.add: reg[reg_a] += reg[reg_b]. -/
def add (s : CPUState) (reg_a reg_b : Int) : HOut :=
  match pyGet s.reg reg_a with
  | none => .exn .indexError s
  | some va =>
    match pyGet s.reg reg_b with
    | none => .exn .indexError s
    | some vb =>
      match pySet s.reg reg_a (va + vb) with
      | none => .exn .indexError s
      | some reg1 => .ok false { s with reg := reg1 }

/-- ALU.mult: reg[reg_a] *= reg[reg_b]. -/
def mult (s : CPUState) (reg_a reg_b : Int) : HOut :=
  match pyGet s.reg reg_a with
  | none => .exn .indexError s
  | some va =>
    match pyGet s.reg reg_b with
    | none => .exn .indexError s
    | some vb =>
      match pySet s.reg reg_a (va * vb) with
      | none => .exn .indexError s
      | some reg1 => .ok false { s with reg := reg1 }

/-- ALU.cmp_op: num1 = reg[reg_a]; num2 = reg[reg_b];
if num1 == num2: fl = 0b00000001; elif num1 < num2: fl = 0b00000100;
elif num1 > num2: fl = 0b00000010. -/
def cmp_op (s : CPUState) (reg_a reg_b : Int) : HOut :=
  match pyGet s.reg reg_a with
  | none => .exn .indexError s
  | some num1 =>
    match pyGet s.reg reg_b with
    | none => .exn .indexError s
    | some num2 =>
      if num1 = num2 then .ok false { s with fl := 0b00000001 }
      else if num1 < num2 then .ok false { s with fl := 0b00000100 }
      else if num2 < num1 then .ok false { s with fl := 0b00000010 }
      else .ok false s

/-- The ALU branchtable built in ALU.__init__, as a lookup by opcode. -/
def aluBranch (opcode : Int) : Option (CPUState → Int → Int → HOut) :=
  if opcode = AND then some and_op
  else if opcode = XOR then some xor
  else if opcode = OR then some or_op
  else if opcode = NOT then some not_op
  else if opcode = SHL then some shl
  else if opcode = SHR then some shr
  else if opcode = MOD then some mod
  else if opcode = MULT then some mult
  else if opcode = ADD then some add
  else if opcode = CMP then some cmp_op
  else none

/-- ALU.run: dispatch through the ALU branchtable, raising for an
opcode the ALU does not recognize. -/
def ALU_run (opcode : Int) (s : CPUState) (reg_a reg_b : Int) : HOut :=
  match aluBranch opcode with
  | some h => h s reg_a reg_b
  | none => .exn (.aluError "Unsupported ALU operation") s

/-! CPU instruction handlers.  Each reads its operands from ram at
pc + 1 (and pc + 2) itself, exactly as the source methods do. -/

/-- CPU.jmp: pc = reg[ram_read(pc + 1)]. -/
def jmp (s : CPUState) : HOut :=
  match ram_read s (s.pc + 1) with
  | none => .exn .indexError s
  | some i =>
    match pyGet s.reg i with
    | none => .exn .indexError s
    | some v => .ok false { s with pc := v }

/-- CPU.jeq: if fl == 1 then jmp else pc += increment(JMP). -/
def jeq (s : CPUState) : HOut :=
  if s.fl = 1 then jmp s
  else .ok false { s with pc := s.pc + increment JMP }

/-- CPU.jne: if fl != 1 then jmp else pc += increment(JNE). -/
def jne (s : CPUState) : HOut :=
  if s.fl ≠ 1 then jmp s
  else .ok false { s with pc := s.pc + increment JNE }

/-- CPU.call: reg[SP] -= 1; ram_write(reg[SP], pc + 2);
num = ram_read(pc + 1); pc = reg[num]. -/
def call (s : CPUState) : HOut :=
  match pyGet s.reg SP with
  | none => .exn .indexError s
  | some sp =>
    match pySet s.reg SP (sp - 1) with
    | none => .exn .indexError s
    | some reg1 =>
      match ram_write { s with reg := reg1 } (sp - 1) (s.pc + 2) with
      | none => .exn .indexError { s with reg := reg1 }
      | some s1 =>
        match ram_read s1 (s1.pc + 1) with
        | none => .exn .indexError s1
        | some num =>
          match pyGet s1.reg num with
          | none => .exn .indexError s1
          | some target => .ok false { s1 with pc := target }

/-- CPU.ret: pc = ram_read(reg[SP]); reg[SP] += 1. -/
def ret (s : CPUState) : HOut :=
  match pyGet s.reg SP with
  | none => .exn .indexError s
  | some sp =>
    match ram_read s sp with
    | none => .exn .indexError s
    | some addr =>
      match pySet s.reg SP (sp + 1) with
      | none => .exn .indexError { s with pc := addr }
      | some reg1 => .ok false { s with pc := addr, reg := reg1 }

/-- CPU.pop: reg_index = ram_read(pc + 1); num = ram_read(reg[SP]);
reg[reg_index] = num; reg[SP] += 1.  The final increment reads reg[SP]
again, after the write to reg[reg_index]. -/
def pop (s : CPUState) : HOut :=
  match ram_read s (s.pc + 1) with
  | none => .exn .indexError s
  | some reg_index =>
    match pyGet s.reg SP with
    | none => .exn .indexError s
    | some sp =>
      match ram_read s sp with
      | none => .exn .indexError s
      | some num =>
        match pySet s.reg reg_index num with
        | none => .exn .indexError s
        | some reg1 =>
          match pyGet reg1 SP with
          | none => .exn .indexError { s with reg := reg1 }
          | some sp2 =>
            match pySet reg1 SP (sp2 + 1) with
            | none => .exn .indexError { s with reg := reg1 }
            | some reg2 => .ok false { s with reg := reg2 }

/-- CPU.push: reg_index = ram_read(pc + 1); num = reg[reg_index];
reg[SP] -= 1; ram_write(reg[SP], num). -/
def push (s : CPUState) : HOut :=
  match ram_read s (s.pc + 1) with
  | none => .exn .indexError s
  | some reg_index =>
    match pyGet s.reg reg_index with
    | none => .exn .indexError s
    | some num =>
      match pyGet s.reg SP with
      | none => .exn .indexError s
      | some sp =>
        match pySet s.reg SP (sp - 1) with
        | none => .exn .indexError s
        | some reg1 =>
          match ram_write { s with reg := reg1 } (sp - 1) num with
          | none => .exn .indexError { s with reg := reg1 }
          | some s1 => .ok false s1

/-- CPU.halt: return True. -/
def halt (s : CPUState) : HOut :=
  .ok true s

/-- CPU.ldi: reg_index = ram_read(pc + 1); num = ram_read(pc + 2);
reg[reg_index] = num. -/
def ldi (s : CPUState) : HOut :=
  match ram_read s (s.pc + 1) with
  | none => .exn .indexError s
  | some reg_index =>
    match ram_read s (s.pc + 2) with
    | none => .exn .indexError s
    | some num =>
      match pySet s.reg reg_index num with
      | none => .exn .indexError s
      | some reg1 => .ok false { s with reg := reg1 }

/-- CPU.prn: reg_index = ram_read(pc + 1); print(reg[reg_index]).  The
printed value is appended to the out trace. -/
def prn (s : CPUState) : HOut :=
  match ram_read s (s.pc + 1) with
  | none => .exn .indexError s
  | some reg_index =>
    match pyGet s.reg reg_index with
    | none => .exn .indexError s
    | some v => .ok false { s with out := s.out ++ [v] }

/-- CPU.nop: pass. -/
def nop (s : CPUState) : HOut :=
  .ok false s

/-- The CPU branchtable built in CPU.__init__, as a lookup by opcode. -/
def branch (opcode : Int) : Option (CPUState → HOut) :=
  if opcode = HALT then some halt
  else if opcode = LDI then some ldi
  else if opcode = PRN then some prn
  else if opcode = NOP then some nop
  else if opcode = POP then some pop
  else if opcode = PUSH then some push
  else if opcode = CALL then some call
  else if opcode = RET then some ret
  else if opcode = JMP then some jmp
  else if opcode = JEQ then some jeq
  else if opcode = JNE then some jne
  else none

/-- The alu_ops set built in CPU.__init__. -/
def aluOps : List Int :=
  [AND, XOR, OR, NOT, SHL, SHR, MOD, MULT, ADD, CMP]

/-- Membership test command in self.alu_ops. -/
def isAluOp (opcode : Int) : Bool :=
  aluOps.contains opcode

/-- CPU.run_alu: alu.run(opcode, ram_read(pc + 1), ram_read(pc + 2)). -/
def run_alu (opcode : Int) (s : CPUState) : HOut :=
  match ram_read s (s.pc + 1) with
  | none => .exn .indexError s
  | some a =>
    match ram_read s (s.pc + 2) with
    | none => .exn .indexError s
    | some b => ALU_run opcode s a b

/-- The dispatch part of one loop iteration: the ALU set is consulted
first, then the CPU branchtable; none means the opcode is in neither
(the unknown-instruction branch of CPU.run). -/
def dispatch (command : Int) (s : CPUState) : Option HOut :=
  if isAluOp command then some (run_alu command s)
  else (branch command).map fun h => h s

/-- Outcome of one iteration of the run loop. -/
inductive StepOut where
  | next (stop : Bool) (s : CPUState)
  | exited (code : Int) (opcode : Int) (s : CPUState)
  | exn (e : Err) (s : CPUState)
deriving DecidableEq

/-- One iteration of the body of CPU.run: fetch the opcode at pc,
dispatch it, and, when the handler returned normally and the sets_pc
bit of the opcode is 0, advance pc by increment(opcode).  An opcode in
neither table prints the unknown-instruction diagnostic naming the
opcode and calls sys.exit(1), modelled as the exited outcome carrying
exit status 1 and the offending opcode. -/
def step (s : CPUState) : StepOut :=
  match ram_read s s.pc with
  | none => .exn .indexError s
  | some command =>
    match dispatch command s with
    | none => .exited 1 command s
    | some (.exn e s1) => .exn e s1
    | some (.ok stop s1) =>
      if sets_pc command = 0 then
        .next stop { s1 with pc := s1.pc + increment command }
      else
        .next stop s1

/-- Outcome of a whole run. -/
inductive RunOut where
  | halted (s : CPUState)
  | exited (code : Int) (opcode : Int) (s : CPUState)
  | exn (e : Err) (s : CPUState)
  | outOfFuel (s : CPUState)
deriving DecidableEq

/-- The while loop of CPU.run, with explicit fuel. -/
def runLoop : Nat → CPUState → RunOut
  | 0, s => .outOfFuel s
  | n + 1, s =>
    match step s with
    | .next true s1 => .halted s1
    | .next false s1 => runLoop n s1
    | .exited c op s1 => .exited c op s1
    | .exn e s1 => .exn e s1

/-- CPU.run: reset pc to 0, then loop. -/
def run (fuel : Nat) (s : CPUState) : RunOut :=
  runLoop fuel { s with pc := 0 }

/-! Helper lemmas about the Python list operations. -/

lemma pyIdx_lt {n : Nat} {i : Int} {j : Nat} (h : pyIdx n i = some j) :
    j < n := by
  unfold pyIdx at h
  split_ifs at h with h1 h2 h3 <;> simp_all <;> omega

lemma pySet_shape {l l' : List Int} {i v : Int}
    (h : pySet l i v = some l') :
    ∃ j, pyIdx l.length i = some j ∧ j < l.length ∧ l' = l.set j v := by
  unfold pySet at h
  cases hj : pyIdx l.length i with
  | none => rw [hj] at h; simp at h
  | some j =>
    rw [hj] at h
    exact ⟨j, rfl, pyIdx_lt hj, by simpa using h.symm⟩

lemma pySet_length {l l' : List Int} {i v : Int}
    (h : pySet l i v = some l') :
    l'.length = l.length := by
  obtain ⟨j, _, _, rfl⟩ := pySet_shape h
  simp

lemma pyGet_pySet_self {l l' : List Int} {i v : Int}
    (h : pySet l i v = some l') :
    pyGet l' i = some v := by
  obtain ⟨j, hj, hlt, rfl⟩ := pySet_shape h
  unfold pyGet
  rw [List.length_set, hj]
  simpa using List.getElem?_set_eq_of_lt v hlt

lemma pyIdx_toNat {n : Nat} {i : Int} {j : Nat} (hi : 0 ≤ i)
    (h : pyIdx n i = some j) : j = i.toNat := by
  unfold pyIdx at h
  split_ifs at h <;> simp_all

lemma pyGet_pySet_of_ne {l l' : List Int} {i k v : Int}
    (h : pySet l i v = some l') (hi : 0 ≤ i) (hk : 0 ≤ k) (hne : k ≠ i) :
    pyGet l' k = pyGet l k := by
  obtain ⟨j, hj, hlt, rfl⟩ := pySet_shape h
  have hj2 : j = i.toNat := pyIdx_toNat hi hj
  unfold pyGet
  rw [List.length_set]
  cases hk2 : pyIdx l.length k with
  | none => rfl
  | some m =>
    have hm : m = k.toNat := pyIdx_toNat hk hk2
    have : j ≠ m := by subst hj2; subst hm; omega
    simp [List.getElem?_set_ne this]

lemma pySet_of_pyGet {l : List Int} {i v : Int}
    (h : pyGet l i = some v) (w : Int) :
    ∃ l', pySet l i w = some l' := by
  unfold pyGet at h
  cases hj : pyIdx l.length i with
  | none => rw [hj] at h; simp at h
  | some j => exact ⟨l.set j w, by unfold pySet; rw [hj]; rfl⟩

lemma pyGet_length_eight {l : List Int} {v : Int}
    (h : pyGet l 7 = some v) : 7 < l.length := by
  unfold pyGet at h
  cases hj : pyIdx l.length 7 with
  | none => rw [hj] at h; simp at h
  | some j =>
    have hlt := pyIdx_lt hj
    have : j = (7 : Int).toNat := pyIdx_toNat (by norm_num) hj
    simp only [Int.toNat_ofNat] at this
    omega

/-! Reduction lemmas for one loop iteration. -/

lemma step_auto {s : CPUState} {op : Int} {stop : Bool} {s1 : CPUState}
    (hf : ram_read s s.pc = some op)
    (hd : dispatch op s = some (.ok stop s1))
    (hsp : sets_pc op = 0) :
    step s = .next stop { s1 with pc := s1.pc + increment op } := by
  simp only [step, hf, hd, hsp, if_pos]

lemma step_self {s : CPUState} {op : Int} {stop : Bool} {s1 : CPUState}
    (hf : ram_read s s.pc = some op)
    (hd : dispatch op s = some (.ok stop s1))
    (hsp : sets_pc op ≠ 0) :
    step s = .next stop s1 := by
  simp only [step, hf, hd]
  rw [if_neg hsp]

lemma step_raise {s : CPUState} {op : Int} {e : Err} {s1 : CPUState}
    (hf : ram_read s s.pc = some op)
    (hd : dispatch op s = some (.exn e s1)) :
    step s = .exn e s1 := by
  simp only [step, hf, hd]

lemma step_unknown {s : CPUState} {op : Int}
    (hf : ram_read s s.pc = some op)
    (hd : dispatch op s = none) :
    step s = .exited 1 op s := by
  simp only [step, hf, hd]

/-! Claims. -/

/-- Program consisting of a single HALT opcode at address 0. -/
def haltProg : CPUState :=
  { reg := [0, 0, 0, 0, 0, 0, 0, 0xF4], ram := [HALT], pc := 0, fl := 0,
    out := [] }

/-- Claim C2 (counterexample): running a program whose byte at address 0
is HALT terminates with pc = 1, not with pc = 0 as the claim states. -/
theorem c2_counterexample :
    run 1 haltProg = RunOut.halted { haltProg with pc := 1 } ∧
    ¬ run 1 haltProg = RunOut.halted { haltProg with pc := 0 } := by
  decide

/-- Claim C2 (amended): when the run loop fetches and executes HALT, the
loop terminates, but only after applying the ordinary auto-advance of
increment(HALT) = 1: the pc after the loop equals the address of the
HALT opcode plus 1. -/
theorem c2_halt_stops_after_advance (s : CPUState) (n : Nat)
    (hf : ram_read s s.pc = some HALT) :
    runLoop (n + 1) s = .halted { s with pc := s.pc + 1 } ∧
    sets_pc HALT = 0 ∧ increment HALT = 1 := by
  have hstep : step s = .next true { s with pc := s.pc + 1 } := by
    have h := step_auto hf
      (show dispatch HALT s = some (HOut.ok true s) from rfl) (by decide)
    simpa [show increment HALT = 1 by decide] using h
  refine ⟨?_, by decide, by decide⟩
  simp [runLoop, hstep]

/-- Claim C2 (witness for the amended theorem). -/
theorem c2_witness :
    ram_read haltProg haltProg.pc = some HALT ∧
    (runLoop 1 haltProg = .halted { haltProg with pc := haltProg.pc + 1 } ∧
     sets_pc HALT = 0 ∧ increment HALT = 1) :=
  ⟨by decide, c2_halt_stops_after_advance haltProg 0 (by decide)⟩

/-- Program consisting of a single unassigned opcode byte 0xFF at
address 0. -/
def unknownProg : CPUState :=
  { reg := [0, 0, 0, 0, 0, 0, 0, 0xF4], ram := [0xFF], pc := 0, fl := 0,
    out := [] }

/-- Claim C7: fetching an opcode that is in neither the ALU set nor the
general branchtable makes the loop print the unknown-instruction
diagnostic naming the opcode and call sys.exit(1): the step outcome is
the exited outcome with status 1 carrying that opcode and the untouched
state, and the loop yields that same outcome no matter how much fuel
remains, so no further instruction executes. -/
theorem c7_unknown_opcode_exits (s : CPUState) (op : Int) (n : Nat)
    (hf : ram_read s s.pc = some op)
    (halu : isAluOp op = false)
    (hbr : branch op = none) :
    step s = .exited 1 op s ∧ runLoop (n + 1) s = .exited 1 op s := by
  have hd : dispatch op s = none := by
    simp [dispatch, halu, hbr]
  have hs : step s = .exited 1 op s := step_unknown hf hd
  exact ⟨hs, by simp [runLoop, hs]⟩

/-- Claim C7 (witness): the opcode byte 0xFF fetched at pc = 0. -/
theorem c7_witness :
    ram_read unknownProg unknownProg.pc = some 0xFF ∧
    isAluOp 0xFF = false ∧ branch 0xFF = none ∧
    (step unknownProg = .exited 1 0xFF unknownProg ∧
     runLoop 4 unknownProg = .exited 1 0xFF unknownProg) :=
  ⟨by decide, by decide, by rfl,
   c7_unknown_opcode_exits unknownProg 0xFF 3 (by decide) (by decide)
     (by rfl)⟩

/-- Program consisting of a single JNE at address 0 with operand 0,
register 0 holding the jump target 9, and the flags at their initial
value 0. -/
def jneProg : CPUState :=
  { reg := [9, 0, 0, 0, 0, 0, 0, 0xF4], ram := [JNE, 0], pc := 0, fl := 0,
    out := [] }

/-- Claim C10: the flags register starts the run at 0, and a JNE
executed while the flags are still 0 takes the jump (pc becomes
reg[operand]), because the handler tests fl != 1 rather than a stored
not-equal bit. -/
theorem c10_jne_on_initial_flags (s : CPUState) (i w : Int)
    (hfl : s.fl = 0)
    (hf : ram_read s s.pc = some JNE)
    (hi : ram_read s (s.pc + 1) = some i)
    (hw : pyGet s.reg i = some w) :
    CPU_init.fl = 0 ∧ step s = .next false { s with pc := w } := by
  refine ⟨rfl, ?_⟩
  have hj : jne s = .ok false { s with pc := w } := by
    simp [jne, jmp, hfl, hi, hw]
  have hd : dispatch JNE s = some (jne s) := rfl
  rw [hj] at hd
  exact step_self hf hd (by decide)

/-- Claim C10 (witness). -/
theorem c10_witness :
    jneProg.fl = 0 ∧ ram_read jneProg jneProg.pc = some JNE ∧
    ram_read jneProg (jneProg.pc + 1) = some 0 ∧
    pyGet jneProg.reg 0 = some 9 ∧
    (CPU_init.fl = 0 ∧ step jneProg = .next false { jneProg with pc := 9 }) :=
  ⟨by decide, by decide, by decide, by decide,
   c10_jne_on_initial_flags jneProg 0 9 (by decide) (by decide) (by decide)
     (by decide)⟩

/-- Program consisting of NOT R0 at address 0, register 0 holding 5. -/
def notProg : CPUState :=
  { reg := [5, 0, 0, 0, 0, 0, 0, 0xF4], ram := [NOT, 0, 0, 0], pc := 0,
    fl := 0, out := [] }

/-- State after one step of notProg: reg 0 complemented to 250, pc
advanced by 2. -/
def notProgAfter : CPUState :=
  { reg := [250, 0, 0, 0, 0, 0, 0, 0xF4], ram := [NOT, 0, 0, 0], pc := 2,
    fl := 0, out := [] }

/-- Claim C1 (counterexample): NOT is an ALU opcode, yet its encoding
0b01101001 has operand-count bits 01, so the loop advances pc by 2, not
by 3 as the claim states for every ALU opcode. -/
theorem c1_counterexample :
    isAluOp NOT = true ∧
    ram_read notProg notProg.pc = some NOT ∧
    step notProg = .next false notProgAfter ∧
    notProgAfter.pc = notProg.pc + 2 ∧
    ¬ notProgAfter.pc = notProg.pc + 3 := by
  decide

/-- Claim C1 (amended): for the nine ALU opcodes other than NOT - ADD,
MULT, AND, XOR, OR, SHL, SHR, MOD, CMP - the sets-pc bit is 0 and the
operand count is 2, so after a handler return the loop advances pc by
operand_count + 1 = 3; NOT also auto-advances (sets-pc bit 0) but is
encoded with operand count 1, so the loop advances pc by 2 after it. -/
theorem c1_alu_auto_advance (op : Int) (s s1 : CPUState) (stop : Bool)
    (hmem : op ∈ ([ADD, MULT, AND, XOR, OR, SHL, SHR, MOD, CMP] : List Int))
    (hf : ram_read s s.pc = some op)
    (hd : dispatch op s = some (.ok stop s1)) :
    sets_pc op = 0 ∧ increment op = 3 ∧
    step s = .next stop { s1 with pc := s1.pc + 3 } ∧
    sets_pc NOT = 0 ∧ increment NOT = 2 := by
  have hdec : sets_pc op = 0 ∧ increment op = 3 := by
    fin_cases hmem <;> exact ⟨by decide, by decide⟩
  refine ⟨hdec.1, hdec.2, ?_, by decide, by decide⟩
  have h := step_auto hf hd hdec.1
  rwa [hdec.2] at h

/-- Program consisting of ADD R0,R1 at address 0 with registers 0 and 1
holding 2 and 3. -/
def addProg : CPUState :=
  { reg := [2, 3, 0, 0, 0, 0, 0, 0xF4], ram := [ADD, 0, 1, 0], pc := 0,
    fl := 0, out := [] }

/-- State produced by the ADD handler on addProg, before the loop
advances pc. -/
def addProgMid : CPUState :=
  { reg := [5, 3, 0, 0, 0, 0, 0, 0xF4], ram := [ADD, 0, 1, 0], pc := 0,
    fl := 0, out := [] }

/-- Claim C1 (witness for the amended theorem). -/
theorem c1_witness :
    ADD ∈ ([ADD, MULT, AND, XOR, OR, SHL, SHR, MOD, CMP] : List Int) ∧
    ram_read addProg addProg.pc = some ADD ∧
    dispatch ADD addProg = some (.ok false addProgMid) ∧
    (sets_pc ADD = 0 ∧ increment ADD = 3 ∧
     step addProg = .next false { addProgMid with pc := addProgMid.pc + 3 } ∧
     sets_pc NOT = 0 ∧ increment NOT = 2) :=
  ⟨by decide, by decide, by decide,
   c1_alu_auto_advance ADD addProg addProgMid false (by decide) (by decide)
     (by decide)⟩

/-- The message of the exception ALU.mod raises on a zero divisor. -/
def divZeroMsg : String := "Unsupported ALU operation - division by zero"

/-- Claim C6: MOD with a zero value in the right operand register
raises the fatal division-by-zero exception.  The handler aborts with
the state exactly as it was - no register is mutated and nothing is
silently stored - and a step dispatching MOD on such operands ends in
the same uncaught exception with the state untouched. -/
theorem c6_mod_by_zero_raises (s : CPUState) (a b : Int)
    (hzero : pyGet s.reg b = some 0) :
    mod s a b = .exn (.aluError divZeroMsg) s ∧
    (ram_read s s.pc = some MOD → ram_read s (s.pc + 1) = some a →
     ram_read s (s.pc + 2) = some b →
     step s = .exn (.aluError divZeroMsg) s) := by
  have hmod : mod s a b = .exn (.aluError divZeroMsg) s := by
    simp [mod, hzero, divZeroMsg]
  refine ⟨hmod, fun hf ha hb => ?_⟩
  have hd : dispatch MOD s = some (.exn (.aluError divZeroMsg) s) := by
    have : dispatch MOD s = some (run_alu MOD s) := rfl
    rw [this]
    simp only [run_alu, ha, hb]
    have hrun : ALU_run MOD s a b = mod s a b := rfl
    rw [hrun, hmod]
  exact step_raise hf hd

/-- Program consisting of MOD R0,R1 at address 0 with register 1
holding 0. -/
def modProg : CPUState :=
  { reg := [7, 0, 0, 0, 0, 0, 0, 0xF4], ram := [ MOD, 0, 1, 0], pc := 0,
    fl := 0, out := [] }

/-- Claim C6 (witness). -/
theorem c6_witness :
    pyGet modProg.reg 1 = some 0 ∧
    (mod modProg 0 1 = .exn (.aluError divZeroMsg) modProg ∧
     (ram_read modProg modProg.pc = some MOD →
      ram_read modProg (modProg.pc + 1) = some 0 →
      ram_read modProg (modProg.pc + 2) = some 1 →
      step modProg = .exn (.aluError divZeroMsg) modProg)) :=
  ⟨by decide, c6_mod_by_zero_raises modProg 0 1 (by decide)⟩

/-- Claim C5: comparing two equal register values sets the flags to
exactly 0b00000001 - the equal bit alone; every compare on readable
operands sets the flags to exactly one of 1 (equal), 2 (greater-than)
or 4 (less-than); a JEQ executed while the flags equal 1 jumps to
reg[operand]; a JNE executed while the flags equal 1 does not jump and
merely skips its operand (pc advances by 2). -/
theorem c5_cmp_flags_and_jumps
    (s : CPUState) (a b va vb : Int)
    (s2 : CPUState) (a2 b2 x y : Int)
    (t : CPUState) (i w : Int) (u : CPUState)
    (hva : pyGet s.reg a = some va) (hvb : pyGet s.reg b = some vb)
    (heq : va = vb)
    (hx : pyGet s2.reg a2 = some x) (hy : pyGet s2.reg b2 = some y)
    (htfl : t.fl = 1) (htf : ram_read t t.pc = some JEQ)
    (hti : ram_read t (t.pc + 1) = some i) (htw : pyGet t.reg i = some w)
    (hufl : u.fl = 1) (huf : ram_read u u.pc = some JNE) :
    cmp_op s a b = .ok false { s with fl := 1 } ∧
    (cmp_op s2 a2 b2 = .ok false { s2 with fl := 1 } ∨
     cmp_op s2 a2 b2 = .ok false { s2 with fl := 2 } ∨
     cmp_op s2 a2 b2 = .ok false { s2 with fl := 4 }) ∧
    step t = .next false { t with pc := w } ∧
    step u = .next false { u with pc := u.pc + 2 } := by
  refine ⟨?_, ?_, ?_, ?_⟩
  · subst heq
    simp [cmp_op, hva, hvb]
  · rcases lt_trichotomy x y with h | h | h
    · right; right
      simp only [cmp_op, hx, hy]
      rw [if_neg (ne_of_lt h), if_pos h]
    · left
      subst h
      simp [cmp_op, hx, hy]
    · right; left
      simp only [cmp_op, hx, hy]
      rw [if_neg (ne_of_gt h), if_neg (not_lt_of_gt h), if_pos h]
  · have hj : jeq t = .ok false { t with pc := w } := by
      simp [jeq, jmp, htfl, hti, htw]
    have hd : dispatch JEQ t = some (jeq t) := rfl
    rw [hj] at hd
    exact step_self htf hd (by decide)
  · have hj : jne u = .ok false { u with pc := u.pc + 2 } := by
      simp [jne, hufl, show increment JNE = 2 by decide]
    have hd : dispatch JNE u = some (jne u) := rfl
    rw [hj] at hd
    exact step_self huf hd (by decide)

/-- Program with CMP R0,R1 at address 0 and equal registers 0, 1. -/
def cmpProg : CPUState :=
  { reg := [5, 5, 3, 0, 0, 0, 0, 0xF4], ram := [CMP, 0, 1, 0], pc := 0,
    fl := 0, out := [] }

/-- State with JEQ R2 at address 0, flags already 1 and register 2
holding the jump target 3. -/
def jeqTaken : CPUState :=
  { reg := [5, 5, 3, 0, 0, 0, 0, 0xF4], ram := [JEQ, 2], pc := 0, fl := 1,
    out := [] }

/-- State with JNE R0 at address 0 and flags already 1. -/
def jneSkipped : CPUState :=
  { reg := [5, 5, 3, 0, 0, 0, 0, 0xF4], ram := [JNE, 0], pc := 0, fl := 1,
    out := [] }

/-- Claim C5 (witness). -/
theorem c5_witness :
    pyGet cmpProg.reg 0 = some 5 ∧ pyGet cmpProg.reg 1 = some 5 ∧
    jeqTaken.fl = 1 ∧ ram_read jeqTaken jeqTaken.pc = some JEQ ∧
    ram_read jeqTaken (jeqTaken.pc + 1) = some 2 ∧
    pyGet jeqTaken.reg 2 = some 3 ∧
    jneSkipped.fl = 1 ∧ ram_read jneSkipped jneSkipped.pc = some JNE ∧
    (cmp_op cmpProg 0 1 = .ok false { cmpProg with fl := 1 } ∧
     (cmp_op cmpProg 0 1 = .ok false { cmpProg with fl := 1 } ∨
      cmp_op cmpProg 0 1 = .ok false { cmpProg with fl := 2 } ∨
      cmp_op cmpProg 0 1 = .ok false { cmpProg with fl := 4 }) ∧
     step jeqTaken = .next false { jeqTaken with pc := 3 } ∧
     step jneSkipped = .next false { jneSkipped with pc := jneSkipped.pc + 2 }) :=
  ⟨by decide, by decide, by decide, by decide, by decide, by decide,
   by decide, by decide,
   c5_cmp_flags_and_jumps cmpProg 0 1 5 5 cmpProg 0 1 5 5 jeqTaken 2 3
     jneSkipped (by decide) (by decide) rfl (by decide) (by decide)
     (by decide) (by decide) (by decide) (by decide) (by decide) (by decide)⟩

/-- Program with registers 0 and 1 both holding the byte value 200. -/
def overflowProg : CPUState :=
  { reg := [200, 200, 0, 0, 0, 0, 0, 0xF4], ram := [ADD, 0, 1, 0], pc := 0,
    fl := 0, out := [] }

/-- overflowProg after ADD R0,R1. -/
def overflowAddRes : CPUState :=
  { reg := [400, 200, 0, 0, 0, 0, 0, 0xF4], ram := [ADD, 0, 1, 0], pc := 0,
    fl := 0, out := [] }

/-- overflowProg after MULT R0,R1. -/
def overflowMultRes : CPUState :=
  { reg := [40000, 200, 0, 0, 0, 0, 0, 0xF4], ram := [ADD, 0, 1, 0],
    pc := 0, fl := 0, out := [] }

/-- Claim C9: NOT stores the bitwise complement of reg[A] masked to 8
bits, so the stored value is always in 0..255, while ADD and MULT do
not mask: with registers 0 and 1 both holding 200 (a value in 0..255),
ADD leaves 400 and MULT leaves 40000 in register 0, both above 255. -/
theorem c9_not_masked_add_mult_unmasked (s : CPUState) (a b va : Int)
    (reg1 : List Int)
    (hva : pyGet s.reg a = some va)
    (hset : pySet s.reg a ((-va - 1).emod 256) = some reg1) :
    not_op s a b = .ok false { s with reg := reg1 } ∧
    pyGet reg1 a = some ((-va - 1).emod 256) ∧
    0 ≤ (-va - 1).emod 256 ∧ (-va - 1).emod 256 < 256 ∧
    (add overflowProg 0 1 = .ok false overflowAddRes ∧
     pyGet overflowAddRes.reg 0 = some 400 ∧ (255 : Int) < 400) ∧
    (mult overflowProg 0 1 = .ok false overflowMultRes ∧
     pyGet overflowMultRes.reg 0 = some 40000 ∧ (255 : Int) < 40000) := by
  refine ⟨?_, pyGet_pySet_self hset, Int.emod_nonneg _ (by norm_num),
    Int.emod_lt_of_pos _ (by norm_num), by decide, by decide⟩
  simp [not_op, hva, hset]

/-- Claim C9 (witness): complementing a register holding 5 stores 250. -/
theorem c9_witness :
    pyGet overflowProg.reg 0 = some 200 ∧
    pySet overflowProg.reg 0 ((-200 - 1).emod 256) =
      some [55, 200, 0, 0, 0, 0, 0, 0xF4] ∧
    (not_op overflowProg 0 1 =
       .ok false { overflowProg with reg := [55, 200, 0, 0, 0, 0, 0, 0xF4] } ∧
     pyGet [55, 200, 0, 0, 0, 0, 0, 0xF4] 0 = some ((-200 - 1).emod 256) ∧
     0 ≤ ((-200 : Int) - 1).emod 256 ∧ ((-200 : Int) - 1).emod 256 < 256 ∧
     (add overflowProg 0 1 = .ok false overflowAddRes ∧
      pyGet overflowAddRes.reg 0 = some 400 ∧ (255 : Int) < 400) ∧
     (mult overflowProg 0 1 = .ok false overflowMultRes ∧
      pyGet overflowMultRes.reg 0 = some 40000 ∧ (255 : Int) < 40000)) :=
  ⟨by decide, by decide,
   c9_not_masked_add_mult_unmasked overflowProg 0 1 200
     [55, 200, 0, 0, 0, 0, 0, 0xF4] (by decide) (by decide)⟩

/-- Claim C8 (counterexample): the address -1 is outside [0, 255], yet
reading or writing it on the 256-cell ram does not fail: Python
negative indexing silently aliases it to cell 255. -/
theorem c8_counterexample :
    ((-1 : Int) < 0 ∨ (255 : Int) < -1) ∧
    ram_read CPU_init (-1) = some 0 ∧
    ¬ ram_read CPU_init (-1) = none ∧
    ¬ ram_write CPU_init (-1) 9 = none := by
  refine ⟨Or.inl (by norm_num), ?_, ?_, ?_⟩ <;> decide

/-- Claim C8 (amended): on the 256-cell ram, a read or write at an
address above 255 or below -256 fails with IndexError; but an address
in [-256, -1] does not fail: it silently aliases the in-range cell at
address + 256, per Python negative indexing. -/
theorem c8_out_of_range_access (s : CPUState) (i : Int)
    (hlen : s.ram.length = 256) :
    ((i < -256 ∨ 255 < i) →
      ram_read s i = none ∧ ∀ v, ram_write s i v = none) ∧
    (-256 ≤ i → i < 0 → ram_read s i = ram_read s (i + 256)) := by
  constructor
  · intro hout
    have hidx : pyIdx s.ram.length i = none := by
      unfold pyIdx
      rw [hlen]
      split_ifs with h1 h2 h3 <;> first | rfl | omega
    constructor
    · unfold ram_read pyGet
      rw [hidx]
      rfl
    · intro v
      unfold ram_write pySet
      rw [hidx]
      rfl
  · intro hlo hhi
    have hidx : pyIdx s.ram.length i = some (i + 256).toNat := by
      unfold pyIdx
      rw [hlen]
      split_ifs with h1 h2 h3 <;> first | rfl | omega
    have hidx2 : pyIdx s.ram.length (i + 256) = some (i + 256).toNat := by
      unfold pyIdx
      rw [hlen]
      split_ifs with h1 h2 <;> first | rfl | omega
    unfold ram_read pyGet
    rw [hidx, hidx2]

/-- Claim C8 (witness for the amended theorem, at address 300). -/
theorem c8_witness :
    CPU_init.ram.length = 256 ∧
    ((((300 : Int) < -256 ∨ (255 : Int) < 300) →
       ram_read CPU_init 300 = none ∧ ∀ v, ram_write CPU_init 300 v = none) ∧
     ((-256 : Int) ≤ 300 → (300 : Int) < 0 →
       ram_read CPU_init 300 = ram_read CPU_init (300 + 256))) :=
  ⟨by decide, c8_out_of_range_access CPU_init 300 (by decide)⟩

/-- Claim C3: CALL pushes the return address pc + 2 and jumps to
reg[operand]; both CALL and RET are self-positioning, so the loop never
adjusts pc around them; and a later RET executed with the stack cell
and stack pointer as CALL left them (no intervening stack mutation)
sets pc to the address of the CALL plus 2 and restores the stack
pointer to its pre-CALL value. -/
theorem c3_call_ret_round_trip (s : CPUState) (i tgt sp : Int)
    (reg1 : List Int) (s1 : CPUState)
    (hf : ram_read s s.pc = some CALL)
    (hsp : pyGet s.reg SP = some sp)
    (hreg1 : pySet s.reg SP (sp - 1) = some reg1)
    (hs1 : ram_write { s with reg := reg1 } (sp - 1) (s.pc + 2) = some s1)
    (hop : ram_read s1 (s1.pc + 1) = some i)
    (htgt : pyGet reg1 i = some tgt) :
    sets_pc CALL ≠ 0 ∧ sets_pc RET ≠ 0 ∧
    step s = .next false { s1 with pc := tgt } ∧
    pyGet s1.reg SP = some (sp - 1) ∧
    ram_read s1 (sp - 1) = some (s.pc + 2) ∧
    (∀ s2 : CPUState, ∀ reg2 : List Int,
      ram_read s2 s2.pc = some RET →
      pyGet s2.reg SP = some (sp - 1) →
      ram_read s2 (sp - 1) = some (s.pc + 2) →
      pySet s2.reg SP (sp - 1 + 1) = some reg2 →
      step s2 = .next false { s2 with pc := s.pc + 2, reg := reg2 } ∧
      pyGet reg2 SP = some sp) := by
  obtain ⟨ram1, hram1, rfl⟩ :
      ∃ ram1, pySet s.ram (sp - 1) (s.pc + 2) = some ram1 ∧
        s1 = { s with reg := reg1, ram := ram1 } := by
    unfold ram_write at hs1
    revert hs1
    cases hh : pySet s.ram (sp - 1) (s.pc + 2) with
    | none => intro hs1; simp at hs1
    | some ram1 =>
      intro hs1
      refine ⟨ram1, rfl, ?_⟩
      simpa using hs1.symm
  have hcall : call s = .ok false { s with reg := reg1, ram := ram1, pc := tgt } := by
    simp only [call, hsp, hreg1]
    rw [show ram_write { s with reg := reg1 } (sp - 1) (s.pc + 2) =
      some { s with reg := reg1, ram := ram1 } from hs1]
    simp only [hop, htgt]
  refine ⟨by decide, by decide, ?_, ?_, ?_, ?_⟩
  · have hd : dispatch CALL s = some (call s) := rfl
    rw [hcall] at hd
    exact step_self hf hd (by decide)
  · simpa using pyGet_pySet_self hreg1
  · simpa [ram_read] using pyGet_pySet_self hram1
  · intro s2 reg2 hf2 hsp2 hmem2 hset2
    have hret : ret s2 = .ok false { s2 with pc := s.pc + 2, reg := reg2 } := by
      simp only [ret, hsp2]
      rw [show ram_read s2 (sp - 1) = some (s.pc + 2) from hmem2]
      simp only [hset2]
    constructor
    · have hd : dispatch RET s2 = some (ret s2) := rfl
      rw [hret] at hd
      exact step_self hf2 hd (by decide)
    · have h := pyGet_pySet_self hset2
      have heq : sp - 1 + 1 = sp := by omega
      rwa [heq] at h

/-- Program with CALL R0 at address 0, register 0 pointing at a RET at
address 6 and the stack pointer at 12 (ram is 14 cells long). -/
def callProg : CPUState :=
  { reg := [6, 0, 0, 0, 0, 0, 0, 12],
    ram := [CALL, 0, 1, 0, 0, 0, RET, 0, 0, 0, 0, 0, 0, 0], pc := 0,
    fl := 0, out := [] }

/-- callProg after the CALL handler ran, before the jump target is
installed in pc: SP decremented to 11 and the return address 2 stored
at ram[11]. -/
def callS1 : CPUState :=
  { reg := [6, 0, 0, 0, 0, 0, 0, 11],
    ram := [CALL, 0, 1, 0, 0, 0, RET, 0, 0, 0, 0, 2, 0, 0], pc := 0,
    fl := 0, out := [] }

/-- The state in which the matching RET executes: callS1 positioned at
the RET. -/
def callS2 : CPUState :=
  { reg := [6, 0, 0, 0, 0, 0, 0, 11],
    ram := [CALL, 0, 1, 0, 0, 0, RET, 0, 0, 0, 0, 2, 0, 0], pc := 6,
    fl := 0, out := [] }

/-- Claim C3 (witness). -/
theorem c3_witness :
    ram_read callProg callProg.pc = some CALL ∧
    pyGet callProg.reg SP = some 12 ∧
    pySet callProg.reg SP (12 - 1) = some [6, 0, 0, 0, 0, 0, 0, 11] ∧
    ram_write { callProg with reg := [6, 0, 0, 0, 0, 0, 0, 11] } (12 - 1)
      (callProg.pc + 2) = some callS1 ∧
    ram_read callS1 (callS1.pc + 1) = some 0 ∧
    pyGet [6, 0, 0, 0, 0, 0, 0, 11] 0 = some 6 ∧
    ram_read callS2 callS2.pc = some RET ∧
    pyGet callS2.reg SP = some (12 - 1) ∧
    ram_read callS2 (12 - 1) = some (callProg.pc + 2) ∧
    pySet callS2.reg SP (12 - 1 + 1) = some [6, 0, 0, 0, 0, 0, 0, 12] ∧
    step callProg = .next false { callS1 with pc := 6 } ∧
    step callS2 = .next false
      { callS2 with pc := callProg.pc + 2, reg := [6, 0, 0, 0, 0, 0, 0, 12] } ∧
    pyGet [6, 0, 0, 0, 0, 0, 0, 12] SP = some 12 := by
  have h := c3_call_ret_round_trip callProg 0 6 12 [6, 0, 0, 0, 0, 0, 0, 11]
    callS1 (by decide) (by decide) (by decide) (by decide) (by decide)
    (by decide)
  have h2 := h.2.2.2.2.2 callS2 [6, 0, 0, 0, 0, 0, 0, 12] (by decide)
    (by decide) (by decide) (by decide)
  exact ⟨by decide, by decide, by decide, by decide, by decide, by decide,
    by decide, by decide, by decide, by decide, h.2.2.1, h2.1, h2.2⟩

/-- Claim C4 (amended): PUSH(i) immediately followed by POP(j) leaves
SP unchanged and stores the pre-push value of register i into register
j, for every i in 0..7 and every j in 0..7 other than 7; when j is 7
(the stack-pointer register itself), POP overwrites the stack pointer
with the popped value and then increments it, so SP ends at that value
plus 1 rather than unchanged, and register 7 does not receive the
pre-push value. -/
theorem c4_push_then_pop (s : CPUState) (i j v sp : Int)
    (reg1 : List Int) (s1 s2 : CPUState) (reg2 reg3 : List Int)
    (hj0 : 0 ≤ j) (hj7 : ¬ j = 7)
    (hf : ram_read s s.pc = some PUSH)
    (hi : ram_read s (s.pc + 1) = some i)
    (hv : pyGet s.reg i = some v)
    (hsp : pyGet s.reg SP = some sp)
    (hreg1 : pySet s.reg SP (sp - 1) = some reg1)
    (hs1 : ram_write { s with reg := reg1 } (sp - 1) v = some s1)
    (hs2 : s2 = { s1 with pc := s1.pc + 2 })
    (hf2 : ram_read s2 s2.pc = some POP)
    (hjop : ram_read s2 (s2.pc + 1) = some j)
    (hreg2 : pySet reg1 j v = some reg2)
    (hreg3 : pySet reg2 SP (sp - 1 + 1) = some reg3) :
    step s = .next false s2 ∧
    step s2 = .next false { s2 with reg := reg3, pc := s2.pc + 2 } ∧
    pyGet reg3 SP = some sp ∧
    pyGet reg3 j = some v := by
  obtain ⟨ram1, hram1, rfl⟩ :
      ∃ ram1, pySet s.ram (sp - 1) v = some ram1 ∧
        s1 = { s with reg := reg1, ram := ram1 } := by
    unfold ram_write at hs1
    revert hs1
    cases hh : pySet s.ram (sp - 1) v with
    | none => intro hs1; simp at hs1
    | some ram1 =>
      intro hs1
      refine ⟨ram1, rfl, ?_⟩
      simpa using hs1.symm
  have hspush : step s = .next false s2 := by
    have hpush : push s = .ok false { s with reg := reg1, ram := ram1 } := by
      simp only [push, hi, hv, hsp, hreg1]
      rw [show ram_write { s with reg := reg1 } (sp - 1) v =
        some { s with reg := reg1, ram := ram1 } from hs1]
    have hd : dispatch PUSH s = some (push s) := rfl
    rw [hpush] at hd
    have h := step_auto hf hd (by decide)
    rw [show increment PUSH = 2 by decide] at h
    rw [hs2]
    exact h
  have hsp1 : pyGet reg1 SP = some (sp - 1) := pyGet_pySet_self hreg1
  have hs2reg : s2.reg = reg1 := by rw [hs2]
  have hs2ram : s2.ram = ram1 := by rw [hs2]
  have hmemv : ram_read s2 (sp - 1) = some v := by
    unfold ram_read
    rw [hs2ram]
    exact pyGet_pySet_self hram1
  have hsp2 : pyGet reg2 SP = some (sp - 1) := by
    have h := pyGet_pySet_of_ne hreg2 hj0 (by decide : (0 : Int) ≤ SP)
      (by simpa [SP] using fun h => hj7 h.symm)
    rw [h]
    exact hsp1
  have hpop : pop s2 = .ok false { s2 with reg := reg3 } := by
    simp only [pop, hjop, hs2reg, hsp1, hmemv, hreg2, hsp2, hreg3]
  refine ⟨hspush, ?_, ?_, ?_⟩
  · have hd : dispatch POP s2 = some (pop s2) := rfl
    rw [hpop] at hd
    have h := step_auto hf2 hd (by decide)
    rw [show increment POP = 2 by decide] at h
    simpa using h
  · have h := pyGet_pySet_self hreg3
    have heq : sp - 1 + 1 = sp := by omega
    rwa [heq] at h
  · have h := pyGet_pySet_of_ne hreg3 (by decide : (0 : Int) ≤ SP) hj0
      (by simpa [SP] using hj7)
    rw [h]
    exact pyGet_pySet_self hreg2

/-- Program with PUSH R0 at address 0 and POP R1 at address 2, register
0 holding 9 and the stack pointer at 6 (ram is 8 cells long). -/
def pushPopProg : CPUState :=
  { reg := [9, 0, 0, 0, 0, 0, 0, 6], ram := [PUSH, 0, POP, 1, 0, 0, 0, 0],
    pc := 0, fl := 0, out := [] }

/-- pushPopProg right after the PUSH handler ran, before the loop
advanced pc: SP down to 5 and the value 9 stored at ram[5]. -/
def pushPopS1 : CPUState :=
  { reg := [9, 0, 0, 0, 0, 0, 0, 5], ram := [PUSH, 0, POP, 1, 0, 9, 0, 0],
    pc := 0, fl := 0, out := [] }

/-- pushPopProg after the PUSH step completed: pushPopS1 with pc
advanced to 2. -/
def pushPopMid : CPUState :=
  { reg := [9, 0, 0, 0, 0, 0, 0, 5], ram := [PUSH, 0, POP, 1, 0, 9, 0, 0],
    pc := 2, fl := 0, out := [] }

/-- Claim C4 (witness, with i = 0 and j = 1). -/
theorem c4_witness :
    (0 : Int) ≤ 1 ∧ ¬ (1 : Int) = 7 ∧
    ram_read pushPopProg pushPopProg.pc = some PUSH ∧
    ram_read pushPopProg (pushPopProg.pc + 1) = some 0 ∧
    pyGet pushPopProg.reg 0 = some 9 ∧
    pyGet pushPopProg.reg SP = some 6 ∧
    pySet pushPopProg.reg SP (6 - 1) = some [9, 0, 0, 0, 0, 0, 0, 5] ∧
    ram_write { pushPopProg with reg := [9, 0, 0, 0, 0, 0, 0, 5] } (6 - 1) 9 =
      some pushPopS1 ∧
    pushPopMid = { pushPopS1 with pc := pushPopS1.pc + 2 } ∧
    ram_read pushPopMid pushPopMid.pc = some POP ∧
    ram_read pushPopMid (pushPopMid.pc + 1) = some 1 ∧
    pySet [9, 0, 0, 0, 0, 0, 0, 5] 1 9 = some [9, 9, 0, 0, 0, 0, 0, 5] ∧
    pySet [9, 9, 0, 0, 0, 0, 0, 5] SP (6 - 1 + 1) =
      some [9, 9, 0, 0, 0, 0, 0, 6] ∧
    step pushPopProg = .next false pushPopMid ∧
    step pushPopMid = .next false
      { pushPopMid with
          reg := [9, 9, 0, 0, 0, 0, 0, 6]
          pc := pushPopMid.pc + 2 } ∧
    pyGet [9, 9, 0, 0, 0, 0, 0, 6] SP = some 6 ∧
    pyGet [9, 9, 0, 0, 0, 0, 0, 6] 1 = some 9 := by
  have h := c4_push_then_pop pushPopProg 0 1 9 6 [9, 0, 0, 0, 0, 0, 0, 5]
    pushPopS1 pushPopMid [9, 9, 0, 0, 0, 0, 0, 5]
    [9, 9, 0, 0, 0, 0, 0, 6] (by decide) (by decide) (by decide) (by decide)
    (by decide) (by decide) (by decide) (by decide) (by decide) (by decide)
    (by decide) (by decide) (by decide)
  exact ⟨by decide, by decide, by decide, by decide, by decide, by decide,
    by decide, by decide, by decide, by decide, by decide, by decide,
    by decide, h.1, h.2.1, h.2.2.1, h.2.2.2⟩

/-- Program with PUSH R0 at address 0 and POP R7 at address 2, register
0 holding 9 and the stack pointer at 6. -/
def popSpProg : CPUState :=
  { reg := [9, 0, 0, 0, 0, 0, 0, 6], ram := [PUSH, 0, POP, 7, 0, 0, 0, 0],
    pc := 0, fl := 0, out := [] }

/-- popSpProg after the PUSH. -/
def popSpMid : CPUState :=
  { reg := [9, 0, 0, 0, 0, 0, 0, 5], ram := [PUSH, 0, POP, 7, 0, 9, 0, 0],
    pc := 2, fl := 0, out := [] }

/-- popSpProg after PUSH R0 then POP R7: register 7 ends at 10, not at
the pre-push reg[0] = 9, and SP is 10, not the pre-push 6. -/
def popSpEnd : CPUState :=
  { reg := [9, 0, 0, 0, 0, 0, 0, 10], ram := [PUSH, 0, POP, 7, 0, 9, 0, 0],
    pc := 4, fl := 0, out := [] }

/-- Claim C4 (counterexample): with i = 0 and j = 7 - both register
indices in 0..7 - PUSH(0) then POP(7) changes SP from 6 to 10 and
leaves 10, not the pre-push reg[0] = 9, in register 7. -/
theorem c4_counterexample :
    ram_read popSpProg popSpProg.pc = some PUSH ∧
    ram_read popSpProg (popSpProg.pc + 1) = some 0 ∧
    ram_read popSpProg (popSpProg.pc + 2) = some POP ∧
    ram_read popSpProg (popSpProg.pc + 3) = some 7 ∧
    pyGet popSpProg.reg 0 = some 9 ∧
    pyGet popSpProg.reg SP = some 6 ∧
    step popSpProg = .next false popSpMid ∧
    step popSpMid = .next false popSpEnd ∧
    ¬ pyGet popSpEnd.reg SP = some 6 ∧
    ¬ pyGet popSpEnd.reg 7 = some 9 := by
  decide

end LS8
